import Mathlib

/-
Verification of the voice-cloner backend (FastAPI service).
Shallow embedding of the Python sources under app/:
  app/core/exceptions.py, app/utils/file_utils.py, app/api/dependencies.py,
  app/models/storage.py, app/services/auth_service.py, app/services/engine.py,
  app/services/voice_service.py, app/api/routes/{auth,health,voices}.py,
  app/main.py, app/models/schemas.py.
Machine integers do not overflow anywhere in the modelled code; byte strings
are modelled as lists of naturals, timestamps as naturals (seconds), and
on-disk paths as lists of characters relative to the configured upload
directory.  The SQLAlchemy tables behind app/models/storage.py are modelled
as in-memory association lists with the uniqueness constraints declared in
app/models/database.py; freshly generated UUID4 identifiers appear as
explicit parameters.
-/

/-- ASCII lowercasing of one character; models what Python str.lower does on
the ASCII inputs relevant here. -/
def asciiLowerChar (c : Char) : Char :=
  if 65 ≤ c.toNat ∧ c.toNat ≤ 90 then Char.ofNat (c.toNat + 32) else c

/-- Models Python str.lower (restricted to ASCII case folding). -/
def pyLower (s : String) : String :=
  String.mk (s.data.map asciiLowerChar)

/-- Python str.strip whitespace set (space, tab, newline, carriage return,
vertical tab, form feed). -/
def isPySpace (c : Char) : Bool :=
  c = ' ' ∨ c = '\t' ∨ c = '\n' ∨ c = '\r' ∨ c.toNat = 11 ∨ c.toNat = 12

/-- Models Python str.strip(): drop leading and trailing whitespace. -/
def pyStrip (s : String) : String :=
  String.mk (((s.data.dropWhile isPySpace).reverse.dropWhile isPySpace).reverse)

/-- Python "a or b" for an optional string a and a string default b: the
default is taken when a is absent or empty (falsy). -/
def pyOrStr (o : Option String) (d : String) : String :=
  match o with
  | none => d
  | some s => if s = "" then d else s

/-- Python truthiness of an optional string: false for absent and for "". -/
def pyTruthyStr (o : Option String) : Bool :=
  match o with
  | none => false
  | some s => decide (s ≠ "")

/-- An HTTPException as raised by app/core/exceptions.py: a status code and a
detail message. -/
structure HTTPError where
  status : Nat
  detail : String
deriving Repr, DecidableEq

/-- app/core/exceptions.py lines 7-14: VoiceNotFoundError (404). -/
def voiceNotFoundError (voiceId : String) : HTTPError :=
  { status := 404, detail := "Voice with ID " ++ voiceId ++ " not found" }

/-- app/core/exceptions.py lines 17-24: InvalidAudioFileError (400). -/
def invalidAudioFileError (contentType : String) : HTTPError :=
  { status := 400
    detail := "Invalid audio file type: " ++ contentType ++
      ". Supported: wav, mp3, m4a, ogg, webm, flac" }

/-- app/core/exceptions.py lines 27-34: EmbeddingComputationError (500). -/
def embeddingComputationError (message : String) : HTTPError :=
  { status := 500, detail := "Failed to compute speaker embedding: " ++ message }

/-- app/core/exceptions.py lines 37-44: SynthesisError (500). -/
def synthesisError (message : String) : HTTPError :=
  { status := 500, detail := "Speech synthesis failed: " ++ message }

/-- app/core/exceptions.py lines 47-54: ValidationError (400). -/
def validationError (message : String) : HTTPError :=
  { status := 400, detail := message }

/-- The exception kinds defined in app/core/exceptions.py together with the
status codes they carry; this is the complete list of classes in the module. -/
def exceptionsModuleKinds : List (String × Nat) :=
  [("VoiceNotFoundError", (voiceNotFoundError "").status),
   ("InvalidAudioFileError", (invalidAudioFileError "").status),
   ("EmbeddingComputationError", (embeddingComputationError "").status),
   ("SynthesisError", (synthesisError "").status),
   ("ValidationError", (validationError "").status)]

/-- Names imported from app.core.exceptions by app/api/dependencies.py
lines 8-12. -/
def dependenciesImportsFromExceptions : List String :=
  ["ValidationError", "InvalidAudioFileError", "AuthenticationError"]

/-- Names imported from app.core.exceptions by app/api/routes/auth.py
line 8. -/
def authRoutesImportsFromExceptions : List String :=
  ["AuthenticationError", "ValidationError"]

/-- Names imported from app.core.exceptions by app/services/auth_service.py
line 14. -/
def authServiceImportsFromExceptions : List String :=
  ["AuthenticationError", "ValidationError"]

/-- app/utils/file_utils.py lines 46-58: the audio MIME allow-list. -/
def validAudioTypes : List String :=
  ["audio/wav", "audio/wave", "audio/x-wav", "audio/mpeg", "audio/mp3",
   "audio/mp4", "audio/x-m4a", "audio/m4a", "audio/ogg", "audio/webm",
   "audio/flac"]

/-- app/utils/file_utils.py lines 36-59: validate_audio_file is a
case-insensitive membership test of the content type in the allow-list. -/
def validate_audio_file (contentType : String) : Bool :=
  validAudioTypes.contains (pyLower contentType)

/-- A starlette UploadFile as seen by the dependency: filename and
content_type are both optional. -/
structure UploadFile where
  filename : Option String
  content_type : Option String
deriving Repr, DecidableEq

/-- app/api/dependencies.py lines 18-38: validate_uploaded_file. Rejects a
falsy filename with ValidationError, a content type outside the allow-list
(with an absent content type replaced by "") with InvalidAudioFileError whose
message shows "unknown" for a falsy content type. -/
def validate_uploaded_file (file : UploadFile) : Except HTTPError UploadFile :=
  if pyTruthyStr file.filename = false then
    Except.error (validationError "No file provided")
  else if validate_audio_file (pyOrStr file.content_type "") = false then
    Except.error (invalidAudioFileError (pyOrStr file.content_type "unknown"))
  else Except.ok file

/-- A row of the users table (app/models/database.py lines 19-33, surfaced as
UserRecord by app/models/storage.py lines 178-207).  Timestamps are elided:
no modelled operation computes on them. -/
structure UserRow where
  user_id : String
  email : String
  name : Option String
  picture : Option String
  provider : String
deriving Repr, DecidableEq

/-- app/models/storage.py lines 227-251, UserStorage.create: inserts a row
with the email lowercased.  The database enforces the unique constraints of
app/models/database.py (email unique, user_id primary key), in which case the
transaction rolls back and the error re-raises; the freshly generated UUID4
primary key is the explicit freshId argument. -/
def user_create (db : List UserRow) (freshId : String) (email : String)
    (name : Option String) (picture : Option String) (provider : String) :
    Except String (List UserRow × UserRow) :=
  if db.any (fun r => r.email == pyLower email) ∨
     db.any (fun r => r.user_id == freshId) then
    Except.error "UniqueViolation"
  else
    let row : UserRow :=
      { user_id := freshId, email := pyLower email, name := name,
        picture := picture, provider := provider }
    Except.ok (db ++ [row], row)

/-- app/models/storage.py lines 253-264, UserStorage.get: first row whose
user_id matches, absent otherwise. -/
def user_get (db : List UserRow) (userId : String) : Option UserRow :=
  db.find? (fun r => r.user_id == userId)

/-- app/models/storage.py lines 266-277, UserStorage.get_by_email: first row
whose email matches the lowercased query, absent otherwise. -/
def user_get_by_email (db : List UserRow) (email : String) : Option UserRow :=
  db.find? (fun r => r.email == pyLower email)

/-- A path on disk, relative to the configured upload directory; the directory
itself is constant across the modelled operations. -/
abbrev DiskPath := List Char

/-- A row of the sample_voices table (app/models/database.py lines 36-62,
surfaced as VoiceRecord by app/models/storage.py lines 15-53).  The optional
duration (a Python float no modelled operation computes on) is abstracted to
a natural; timestamps are elided. -/
structure VoiceRow where
  voice_id : String
  user_id : String
  filename : String
  file_path : DiskPath
  embedding_path : Option String
  duration : Option Nat
  sample_rate : Option Nat
  name : Option String
  description : Option String
deriving Repr, DecidableEq

/-- app/models/storage.py lines 107-120, VoiceStorage.get: first row whose
voice_id matches, absent otherwise. -/
def voice_get (db : List VoiceRow) (voiceId : String) : Option VoiceRow :=
  db.find? (fun r => r.voice_id == voiceId)

/-- The payload dict of a JWT minted by app/services/auth_service.py: subject,
email, expiry, issued-at (both as seconds since the epoch), and the
access/refresh type discriminator. -/
structure TokenPayload where
  sub : String
  email : String
  exp : Nat
  iat : Nat
  type : String
deriving Repr, DecidableEq

/-- A signed token as produced by jose jwt.encode: the payload together with
the key it was signed under.  A forged token is one whose sigKey differs from
the verifier's configured key. -/
structure JWToken where
  payload : TokenPayload
  sigKey : String
deriving Repr, DecidableEq

/-- jose jwt.encode(payload, key, algorithm): signs the payload with the key
(the process-wide HS256 algorithm is constant and elided). -/
def jwtEncode (payload : TokenPayload) (key : String) : JWToken :=
  { payload := payload, sigKey := key }

/-- jose jwt.decode(token, key, algorithms) at current time now: returns the
payload when the signature verifies under the key and the expiry has not
passed; raises JWTError otherwise (modelled as none). -/
def jwtDecode (token : JWToken) (key : String) (now : Nat) : Option TokenPayload :=
  if token.sigKey = key ∧ now ≤ token.payload.exp then some token.payload else none

/-- app/core/config.py line 42: ACCESS_TOKEN_EXPIRE_MINUTES. -/
def accessTokenExpireMinutes : Nat := 30

/-- app/core/config.py line 43: REFRESH_TOKEN_EXPIRE_DAYS. -/
def refreshTokenExpireDays : Nat := 30

/-- app/services/auth_service.py lines 201-224, create_access_token: payload
with sub = user id, email, exp = now + 30 minutes, iat = now, type "access",
signed with the configured SECRET_KEY (the key parameter). -/
def create_access_token (key : String) (now : Nat) (user : UserRow) : JWToken :=
  jwtEncode
    { sub := user.user_id, email := user.email,
      exp := now + accessTokenExpireMinutes * 60, iat := now, type := "access" }
    key

/-- app/services/auth_service.py lines 226-247, create_refresh_token: same
payload shape with exp = now + 30 days and type "refresh". -/
def create_refresh_token (key : String) (now : Nat) (user : UserRow) : JWToken :=
  jwtEncode
    { sub := user.user_id, email := user.email,
      exp := now + refreshTokenExpireDays * 86400, iat := now, type := "refresh" }
    key

/-- app/services/auth_service.py lines 249-265, verify_access_token: decode
under the configured key, mapping JWTError to None.  No field of the payload
(in particular not the type discriminator) is inspected. -/
def verify_access_token (key : String) (now : Nat) (token : JWToken) :
    Option TokenPayload :=
  jwtDecode token key now

/-- app/services/auth_service.py lines 366-384, get_current_user: verify the
token, return None on failure or on a falsy subject, otherwise look the
subject up in the user store. -/
def get_current_user (db : List UserRow) (key : String) (now : Nat)
    (token : JWToken) : Option UserRow :=
  match verify_access_token key now token with
  | none => none
  | some payload =>
    if payload.sub = "" then none else user_get db payload.sub

/-- app/services/engine.py lines 9-38, compute_speaker_embedding: the stub
returns a 256-dimensional zero vector with absent duration and sample rate. -/
def compute_speaker_embedding (audioPath : DiskPath) :
    List Nat × Option Nat × Option Nat :=
  (List.replicate 256 0, none, none)

/-- app/services/engine.py lines 41-74, synthesize_speech: the stub returns an
empty byte string. -/
def synthesize_speech (embedding : List Nat) (text : String)
    (sampleRate : Nat) (format : String) : List Nat :=
  []

/-- An invocation of the inference boundary, recorded so that theorems can
state whether a request reached the engine. -/
inductive EngineCall where
  | computeEmbedding (path : DiskPath)
  | synthesizeSpeech (text : String) (sampleRate : Nat) (format : String)
deriving Repr, DecidableEq

/-- app/models/schemas.py lines 10-19, SynthesizeRequest validation: text has
min_length 1, format matches wav or mp3, sample_rate lies in 8000..48000. -/
def synthesizeRequestValid (text : String) (format : String)
    (sampleRate : Nat) : Bool :=
  1 ≤ text.length ∧ (format = "wav" ∨ format = "mp3") ∧
    8000 ≤ sampleRate ∧ sampleRate ≤ 48000

/-- app/services/voice_service.py lines 96-147, VoiceService.synthesize: fetch
the voice (VoiceNotFoundError if absent), reject falsy or whitespace-only text
with SynthesisError, then recompute the embedding from the stored audio path
and call the synthesis stub.  The result is paired with the list of engine
invocations performed.  The except branches at lines 144-147 (re-raise
VoiceNotFoundError, wrap anything else as SynthesisError) are unreachable
under the total stub engine and so leave no residue in the embedding. -/
def voiceServiceSynthesize (voices : List VoiceRow) (voiceId : String)
    (text : String) (format : String) (sampleRate : Nat) :
    Except HTTPError (List Nat) × List EngineCall :=
  match voice_get voices voiceId with
  | none => (Except.error (voiceNotFoundError voiceId), [])
  | some record =>
    if text = "" ∨ pyStrip text = "" then
      (Except.error (synthesisError "Text cannot be empty"), [])
    else
      let emb := compute_speaker_embedding record.file_path
      let audio := synthesize_speech emb.1 (pyStrip text) sampleRate format
      (Except.ok audio,
       [EngineCall.computeEmbedding record.file_path,
        EngineCall.synthesizeSpeech (pyStrip text) sampleRate format])

/-- A Python exception value as it matters to the register-voice cleanup path:
either one of the HTTPException kinds of app/core/exceptions.py, or a plain
TypeError / OSError with its message. -/
inductive PyExc where
  | http (e : HTTPError)
  | typeError (msg : String)
  | osError (msg : String)
deriving Repr, DecidableEq

/-- Python str(e): starlette HTTPException renders "status: detail"; TypeError
and OSError render their message. -/
def excMessage : PyExc → String
  | PyExc.http e => toString e.status ++ ": " ++ e.detail
  | PyExc.typeError m => m
  | PyExc.osError m => m

/-- Either a value or a raised Python exception. -/
inductive PyOutcome (α : Type) where
  | ok (a : α)
  | raised (e : PyExc)
deriving Repr, DecidableEq

/-- The environment of one register_voice run after the file has been saved
(app/services/voice_service.py line 45): the outcome of the try block of
lines 47-69 (embedding computation and storage.create, whose failure modes
are environmental), whether Path(file_path).exists() still holds when the
except branch runs, and whether Path(file_path).unlink() succeeds (none) or
raises (some exception). -/
structure RegisterEnv where
  tryOutcome : PyOutcome VoiceRow
  fileStillExists : Bool
  unlinkOutcome : Option PyExc
deriving Repr, DecidableEq

/-- app/services/voice_service.py lines 47-75, the try/except of
register_voice after the upload has been written to disk.  On success the
record is returned.  On an exception e, the except branch (lines 71-75) runs:
if the saved file still exists it is unlinked — an exception raised by unlink
propagates out of the except block, so the final raise never executes — and
only after a successful (or skipped) unlink is EmbeddingComputationError
raised around str(e).  The boolean result reports whether the file was
actually deleted. -/
def register_voice_after_save (env : RegisterEnv) : PyOutcome VoiceRow × Bool :=
  match env.tryOutcome with
  | PyOutcome.ok r => (PyOutcome.ok r, false)
  | PyOutcome.raised e =>
    if env.fileStillExists then
      match env.unlinkOutcome with
      | some ue => (PyOutcome.raised ue, false)
      | none =>
        (PyOutcome.raised (PyExc.http (embeddingComputationError (excMessage e))),
         true)
    else
      (PyOutcome.raised (PyExc.http (embeddingComputationError (excMessage e))),
       false)

/-- The parameters of VoiceService.register_voice
(app/services/voice_service.py lines 22-28); the method is a staticmethod, so
this is the complete list of bindable names.  There is no user_id. -/
def registerVoiceParamNames : List String :=
  ["file_content", "filename", "name", "description"]

/-- The keyword arguments supplied to voice_service.register_voice by the
upload route (app/api/routes/voices.py lines 45-51). -/
def uploadRouteCallKeywords : List String :=
  ["user_id", "file_content", "filename", "name", "description"]

/-- The parameters of VoiceStorage.create without a default value
(app/models/storage.py lines 73-83): user_id, filename and file_path. -/
def voiceCreateRequiredParams : List String :=
  ["user_id", "filename", "file_path"]

/-- The keyword arguments supplied to storage.create by register_voice
(app/services/voice_service.py lines 59-67). -/
def serviceCreateCallKeywords : List String :=
  ["filename", "file_path", "embedding_path", "duration", "sample_rate",
   "name", "description"]

/-- Python keyword-call binding: the keywords not naming any parameter.  A
nonempty result means the call raises TypeError (unexpected keyword
argument). -/
def pyUnexpectedKeywords (paramNames kwargs : List String) : List String :=
  kwargs.filter (fun k => ¬ paramNames.contains k)

/-- Python keyword-call binding: the required parameters the call leaves
unbound.  A nonempty result means the call raises TypeError (missing
required argument). -/
def pyMissingRequired (requiredParams kwargs : List String) : List String :=
  requiredParams.filter (fun k => ¬ kwargs.contains k)

/-- The status of POST /voices as produced by upload_voice_sample
(app/api/routes/voices.py lines 23-58): the handler calls register_voice with
the keywords above; an unexpected keyword raises TypeError, which no handler
catches, so FastAPI answers 500; only a successful call reaches the declared
201 response. -/
def upload_voice_sample_status : Nat :=
  if (pyUnexpectedKeywords registerVoiceParamNames uploadRouteCallKeywords).isEmpty
  then 201 else 500

/-- A route of the HTTP application: method and path (router mount point
included). -/
structure ApiRoute where
  method : String
  path : String
deriving Repr, DecidableEq

/-- app/api/routes/health.py: the health router. -/
def healthRouterRoutes : List ApiRoute :=
  [{ method := "GET", path := "/health" }]

/-- app/api/routes/voices.py: the voices router. -/
def voicesRouterRoutes : List ApiRoute :=
  [{ method := "POST", path := "/voices" },
   { method := "POST", path := "/voices/{voice_id}/synthesize" },
   { method := "GET", path := "/voices/{voice_id}" }]

/-- app/api/routes/auth.py: the auth router (defined but, see create_app, not
mounted). -/
def authRouterRoutes : List ApiRoute :=
  [{ method := "POST", path := "/auth/google/token" },
   { method := "POST", path := "/auth/verify" },
   { method := "GET", path := "/auth/me" }]

/-- app/main.py lines 39-41: create_app includes exactly the health router and
the voices router. -/
def create_app_routes : List ApiRoute :=
  healthRouterRoutes ++ voicesRouterRoutes

/-- The contents of the upload directory: an association of paths (relative to
the directory) to the byte contents stored there.  upload_dir.mkdir at
app/utils/file_utils.py line 19 guarantees the directory itself exists. -/
abbrev UploadDir := List (DiskPath × List Nat)

/-- Lookup of a path in the directory (what reading the file back returns). -/
def fsLookup (fs : UploadDir) (p : DiskPath) : Option (List Nat) :=
  match fs with
  | [] => none
  | kv :: rest => if kv.1 = p then some kv.2 else fsLookup rest p

/-- Path(p).exists() within the upload directory. -/
def fsExists (fs : UploadDir) (p : DiskPath) : Bool :=
  (fsLookup fs p).isSome

/-- The index of the last occurrence of a character in a name — Python
str.rfind as used by pathlib for stem/suffix. -/
def lastIdxOf (c : Char) : List Char → Option Nat
  | [] => none
  | a :: rest =>
    match lastIdxOf c rest with
    | some i => some (i + 1)
    | none => if a = c then some 0 else none

/-- Where pathlib splits a name into stem and suffix: at the last dot i when
0 < i < len - 1 (CPython PurePath.stem and PurePath.suffix), and at the end of
the name otherwise (no suffix). -/
def pathSplitPoint (q : DiskPath) : Nat :=
  match lastIdxOf '.' q with
  | none => q.length
  | some i => if 0 < i ∧ i + 1 < q.length then i else q.length

/-- Path(q).stem — the name up to the split point. -/
def pathStem (q : DiskPath) : DiskPath :=
  q.take (pathSplitPoint q)

/-- Path(q).suffix — the name from the split point on. -/
def pathExt (q : DiskPath) : DiskPath :=
  q.drop (pathSplitPoint q)

/-- Decimal digits of a counter as written into the f-string. -/
def counterChars (n : Nat) : List Char :=
  Nat.toDigits 10 n

/-- One step of the collision loop of app/utils/file_utils.py lines 26-30:
the next candidate f-string stem_counter-suffix built from the CURRENT path
(so a third collision yields stem_1_2.ext, not stem_2.ext). -/
def nextCandidate (q : DiskPath) (counter : Nat) : DiskPath :=
  pathStem q ++ '_' :: (counterChars counter ++ pathExt q)

/-- The candidate path after i iterations of the loop started at path p with
counter c. -/
def candidateFrom (p : DiskPath) (c : Nat) : Nat → DiskPath
  | 0 => p
  | i + 1 => nextCandidate (candidateFrom p c i) (c + i)

/-- The while loop of app/utils/file_utils.py lines 25-30, with explicit fuel:
advance to successive candidates while the current one exists. -/
def findFreePath (fs : UploadDir) : Nat → DiskPath → Nat → DiskPath
  | 0, path, _ => path
  | fuel + 1, path, counter =>
    if fsExists fs path then
      findFreePath fs fuel (nextCandidate path counter) (counter + 1)
    else path

/-- app/utils/file_utils.py lines 7-33, save_voice_file: starting from the
requested filename with counter 1, find the first candidate that does not
exist (fuel one more than the number of entries always suffices, proved
below), write the bytes there, and return the chosen path together with the
updated directory. -/
def save_voice_file (fs : UploadDir) (content : List Nat) (filename : DiskPath) :
    DiskPath × UploadDir :=
  let p := findFreePath fs (fs.length + 1) filename 1
  (p, (p, content) :: fs)

/-- A concrete stored user, used to instantiate the token theorems. -/
def wUser : UserRow :=
  { user_id := "u1", email := "a@b.com", name := none, picture := none,
    provider := "google" }

/-- A one-user store holding wUser. -/
def wUserDb : List UserRow := [wUser]

/-- A concrete stored voice, used to instantiate the synthesis theorems. -/
def wVoice : VoiceRow :=
  { voice_id := "v1", user_id := "u1", filename := "sample.wav",
    file_path := "sample.wav".data, embedding_path := none, duration := none,
    sample_rate := none, name := none, description := none }

/-- A one-voice store holding wVoice. -/
def wVoiceDb : List VoiceRow := [wVoice]

/-- A concrete register_voice environment: the try block raised and the
compensating unlink succeeds. -/
def wRegisterEnv : RegisterEnv :=
  { tryOutcome := PyOutcome.raised (PyExc.typeError "boom"),
    fileStillExists := true, unlinkOutcome := none }

/-- A concrete register_voice environment: the try block raised and the
compensating unlink itself raises an OSError. -/
def wBadRegisterEnv : RegisterEnv :=
  { tryOutcome := PyOutcome.raised (PyExc.typeError "boom"),
    fileStillExists := true,
    unlinkOutcome := some (PyExc.osError "Permission denied") }

/-- A concrete upload whose content type is missing. -/
def wUploadNoType : UploadFile :=
  { filename := some "sample.wav", content_type := none }

/-- The path of a first upload named sample.wav. -/
def sampleName : DiskPath := "sample.wav".data

/-- The path a second upload named sample.wav is saved under. -/
def sample1Name : DiskPath := "sample_1.wav".data

theorem pathSplitPoint_le (q : DiskPath) : pathSplitPoint q ≤ q.length := by
  unfold pathSplitPoint
  cases h : lastIdxOf '.' q with
  | none => exact Nat.le_refl _
  | some i =>
    dsimp only
    by_cases hc : 0 < i ∧ i + 1 < q.length
    · rw [if_pos hc]; omega
    · rw [if_neg hc]

theorem length_nextCandidate (q : DiskPath) (k : Nat) :
    (nextCandidate q k).length = q.length + 1 + (counterChars k).length := by
  have h := pathSplitPoint_le q
  simp only [nextCandidate, pathStem, pathExt, List.length_append,
    List.length_cons, List.length_take, List.length_drop]
  omega

theorem candidateFrom_succ (p : DiskPath) (c i : Nat) :
    candidateFrom p c (i + 1) = nextCandidate (candidateFrom p c i) (c + i) := rfl

theorem length_candidateFrom_lt (p : DiskPath) (c i : Nat) :
    (candidateFrom p c i).length < (candidateFrom p c (i + 1)).length := by
  rw [candidateFrom_succ, length_nextCandidate]
  omega

theorem candidateFrom_strictMonoLen (p : DiskPath) (c : Nat) :
    StrictMono (fun i => (candidateFrom p c i).length) :=
  strictMono_nat_of_lt_succ (fun i => length_candidateFrom_lt p c i)

theorem candidateFrom_injective (p : DiskPath) (c : Nat) :
    Function.Injective (candidateFrom p c) := by
  intro i j h
  exact (candidateFrom_strictMonoLen p c).injective (congrArg List.length h)

theorem candidateFrom_shift (p : DiskPath) (c : Nat) (j : Nat) :
    candidateFrom p c (j + 1) = candidateFrom (nextCandidate p c) (c + 1) j := by
  induction j with
  | zero => simp [candidateFrom]
  | succ j ih =>
    rw [candidateFrom_succ p c (j + 1), ih,
      candidateFrom_succ (nextCandidate p c) (c + 1) j]
    congr 1
    omega

theorem fsExists_iff_mem (fs : UploadDir) (p : DiskPath) :
    fsExists fs p = true ↔ p ∈ fs.map Prod.fst := by
  induction fs with
  | nil => simp [fsExists, fsLookup]
  | cons kv rest ih =>
    simp only [fsExists, fsLookup] at ih ⊢
    by_cases h : kv.1 = p
    · simp [h]
    · simp [h, Ne.symm h, ih]

theorem exists_free_candidate (fs : UploadDir) (p : DiskPath) (c : Nat) :
    ∃ j, j ≤ fs.length ∧ fsExists fs (candidateFrom p c j) = false := by
  by_contra hall
  push_neg at hall
  have hmem : ∀ j, j ≤ fs.length → candidateFrom p c j ∈ fs.map Prod.fst := by
    intro j hj
    exact (fsExists_iff_mem fs _).mp (eq_true_of_ne_false (hall j hj))
  have hsub : (Finset.range (fs.length + 1)).image (candidateFrom p c) ⊆
      (fs.map Prod.fst).toFinset := by
    intro x hx
    rcases Finset.mem_image.mp hx with ⟨j, hj, rfl⟩
    exact List.mem_toFinset.mpr
      (hmem j (Nat.lt_succ_iff.mp (Finset.mem_range.mp hj)))
  have hcard := Finset.card_le_card hsub
  rw [Finset.card_image_of_injective _ (candidateFrom_injective p c),
    Finset.card_range] at hcard
  have hle := List.toFinset_card_le (fs.map Prod.fst)
  rw [List.length_map] at hle
  omega

theorem findFreePath_free (fs : UploadDir) :
    ∀ (fuel : Nat) (p : DiskPath) (c : Nat),
      (∃ j, j < fuel ∧ fsExists fs (candidateFrom p c j) = false) →
      fsExists fs (findFreePath fs fuel p c) = false := by
  intro fuel
  induction fuel with
  | zero =>
    intro p c h
    obtain ⟨j, hj, _⟩ := h
    omega
  | succ fuel ih =>
    intro p c h
    obtain ⟨j, hj, hfree⟩ := h
    by_cases hex : fsExists fs p = true
    · have hj0 : j ≠ 0 := by
        intro h0
        rw [h0] at hfree
        have : fsExists fs p = false := hfree
        rw [this] at hex
        exact Bool.noConfusion hex
      obtain ⟨j', rfl⟩ : ∃ j', j = j' + 1 := ⟨j - 1, by omega⟩
      have hfree2 : fsExists fs (candidateFrom (nextCandidate p c) (c + 1) j') = false := by
        rw [← candidateFrom_shift]
        exact hfree
      have hrec := ih (nextCandidate p c) (c + 1) ⟨j', by omega, hfree2⟩
      simpa [findFreePath, hex] using hrec
    · have hex2 : fsExists fs p = false := by
        cases hfs : fsExists fs p
        · rfl
        · exact absurd hfs hex
      simp [findFreePath, hex2]

theorem findFreePath_candidate (fs : UploadDir) :
    ∀ (fuel : Nat) (p : DiskPath) (c : Nat),
      ∃ j, findFreePath fs fuel p c = candidateFrom p c j := by
  intro fuel
  induction fuel with
  | zero => intro p c; exact ⟨0, rfl⟩
  | succ fuel ih =>
    intro p c
    by_cases hex : fsExists fs p = true
    · obtain ⟨j, hj⟩ := ih (nextCandidate p c) (c + 1)
      refine ⟨j + 1, ?_⟩
      rw [candidateFrom_shift]
      simpa [findFreePath, hex] using hj
    · exact ⟨0, by simp [findFreePath, hex, candidateFrom]⟩

theorem findFreePath_ne_start (fs : UploadDir) (fuel : Nat) (p : DiskPath)
    (c : Nat) (h : findFreePath fs (fuel + 1) p c ≠ p) : fsExists fs p = true := by
  by_contra hex
  have hex2 : fsExists fs p = false := by
    cases hfs : fsExists fs p
    · rfl
    · exact absurd hfs hex
  exact h (by simp [findFreePath, hex2])

theorem save_voice_file_free (fs : UploadDir) (content : List Nat)
    (filename : DiskPath) :
    fsExists fs (save_voice_file fs content filename).1 = false := by
  show fsExists fs (findFreePath fs (fs.length + 1) filename 1) = false
  obtain ⟨j, hj, hfree⟩ := exists_free_candidate fs filename 1
  exact findFreePath_free fs (fs.length + 1) filename 1 ⟨j, by omega, hfree⟩

theorem fsExists_cons (q : DiskPath) (c : List Nat) (fs : UploadDir)
    (x : DiskPath) :
    fsExists ((q, c) :: fs) x = if q = x then true else fsExists fs x := by
  by_cases h : q = x
  · simp [fsExists, fsLookup, h]
  · simp [fsExists, fsLookup, h]

/-- C6: save_voice_file never overwrites an existing file: two saves under the
same filename into the same directory return distinct paths — the second being
the k-th collision candidate for some k at least 1, i.e. the name with an
incrementing numeric counter suffixed before the extension — and reading each
path back returns its own original bytes. -/
theorem save_voice_file_never_overwrites (fs : UploadDir) (c1 c2 : List Nat)
    (filename p1 p2 : DiskPath) (fs1 fs2 : UploadDir)
    (h1 : save_voice_file fs c1 filename = (p1, fs1))
    (h2 : save_voice_file fs1 c2 filename = (p2, fs2)) :
    p1 ≠ p2 ∧ fsLookup fs2 p1 = some c1 ∧ fsLookup fs2 p2 = some c2 ∧
      ∃ k, 1 ≤ k ∧ p2 = candidateFrom filename 1 k := by
  simp only [save_voice_file] at h1 h2
  injection h1 with hp1 hfs1
  subst hp1
  subst hfs1
  injection h2 with hp2 hfs2
  subst hp2
  subst hfs2
  have hfree1 : fsExists fs (findFreePath fs (fs.length + 1) filename 1) = false :=
    save_voice_file_free fs c1 filename
  have hfree2 :
      fsExists ((findFreePath fs (fs.length + 1) filename 1, c1) :: fs)
        (findFreePath ((findFreePath fs (fs.length + 1) filename 1, c1) :: fs)
          (((findFreePath fs (fs.length + 1) filename 1, c1) :: fs).length + 1)
          filename 1) = false :=
    save_voice_file_free ((findFreePath fs (fs.length + 1) filename 1, c1) :: fs)
      c2 filename
  have hp1mem :
      fsExists ((findFreePath fs (fs.length + 1) filename 1, c1) :: fs)
        (findFreePath fs (fs.length + 1) filename 1) = true := by
    rw [fsExists_cons]
    simp
  have hne :
      findFreePath fs (fs.length + 1) filename 1 ≠
        findFreePath ((findFreePath fs (fs.length + 1) filename 1, c1) :: fs)
          (((findFreePath fs (fs.length + 1) filename 1, c1) :: fs).length + 1)
          filename 1 := by
    intro h
    rw [← h] at hfree2
    rw [hp1mem] at hfree2
    exact Bool.noConfusion hfree2
  refine ⟨hne, ?_, ?_, ?_⟩
  · have hne2 :
        findFreePath ((findFreePath fs (fs.length + 1) filename 1, c1) :: fs)
          (fs.length + 1 + 1) filename 1 ≠
          findFreePath fs (fs.length + 1) filename 1 := by
      simpa using Ne.symm hne
    simp [fsLookup, hne2]
  · simp [fsLookup]
  · obtain ⟨k, hk⟩ :=
      findFreePath_candidate ((findFreePath fs (fs.length + 1) filename 1, c1) :: fs)
        (((findFreePath fs (fs.length + 1) filename 1, c1) :: fs).length + 1)
        filename 1
    refine ⟨k, ?_, hk⟩
    by_contra hk0
    push_neg at hk0
    have hk00 : k = 0 := by omega
    rw [hk00] at hk
    have hkfn : findFreePath ((findFreePath fs (fs.length + 1) filename 1, c1) :: fs)
        (((findFreePath fs (fs.length + 1) filename 1, c1) :: fs).length + 1)
        filename 1 = filename := hk
    have hfn : fsExists ((findFreePath fs (fs.length + 1) filename 1, c1) :: fs)
        filename = true := by
      by_cases hex : fsExists fs filename = true
      · rw [fsExists_cons]
        by_cases hpf : findFreePath fs (fs.length + 1) filename 1 = filename
        · simp [hpf]
        · simp [hpf, hex]
      · have hex2 : fsExists fs filename = false := by
          cases hfs : fsExists fs filename
          · rfl
          · exact absurd hfs hex
        have hP1 : findFreePath fs (fs.length + 1) filename 1 = filename := by
          simp [findFreePath, hex2]
        rw [fsExists_cons]
        simp [hP1]
    rw [hkfn] at hfree2
    rw [hfn] at hfree2
    exact Bool.noConfusion hfree2

/-- Witness for C6: in an empty upload directory, a first sample.wav is saved
as sample.wav, a second one as sample_1.wav, and both contents read back. -/
theorem save_voice_file_never_overwrites_witness :
    sampleName ≠ sample1Name
    ∧ fsLookup [(sample1Name, [2]), (sampleName, [1])] sampleName = some [1]
    ∧ fsLookup [(sample1Name, [2]), (sampleName, [1])] sample1Name = some [2]
    ∧ ∃ k, 1 ≤ k ∧ sample1Name = candidateFrom sampleName 1 k :=
  save_voice_file_never_overwrites [] [1] [2] sampleName sampleName sample1Name
    [(sampleName, [1])] [(sample1Name, [2]), (sampleName, [1])]
    (by decide) (by decide)

/-- C1 (code bug): the upload route passes a user_id keyword argument that
VoiceService.register_voice does not accept, and register_voice's own
storage.create call omits the required user_id parameter, so every
authenticated POST /voices raises TypeError and is answered 500, never 201. -/
theorem upload_user_id_keyword_mismatch :
    pyUnexpectedKeywords registerVoiceParamNames uploadRouteCallKeywords = ["user_id"]
    ∧ pyMissingRequired voiceCreateRequiredParams serviceCreateCallKeywords = ["user_id"]
    ∧ upload_voice_sample_status = 500 := by decide

/-- C2 (code bug): the auth router defines POST /auth/google/token, but
create_app mounts only the health and voices routers, so the endpoint is not
reachable on the application. -/
theorem auth_router_not_mounted :
    ({ method := "POST", path := "/auth/google/token" } : ApiRoute) ∈ authRouterRoutes
    ∧ ¬ ({ method := "POST", path := "/auth/google/token" } : ApiRoute) ∈ create_app_routes
    ∧ create_app_routes = healthRouterRoutes ++ voicesRouterRoutes := by decide

/-- C3 (code bug): the validation, invalid-audio-file, not-found, embedding
and synthesis kinds are defined in the exceptions module with the claimed
statuses 400/400/404/500/500, but no authentication-error kind is defined
there, although dependencies.py, routes/auth.py and auth_service.py all import
AuthenticationError from it, so the program fails at import time. -/
theorem authentication_error_not_defined :
    exceptionsModuleKinds.lookup "ValidationError" = some 400
    ∧ exceptionsModuleKinds.lookup "InvalidAudioFileError" = some 400
    ∧ exceptionsModuleKinds.lookup "VoiceNotFoundError" = some 404
    ∧ exceptionsModuleKinds.lookup "EmbeddingComputationError" = some 500
    ∧ exceptionsModuleKinds.lookup "SynthesisError" = some 500
    ∧ exceptionsModuleKinds.lookup "AuthenticationError" = none
    ∧ "AuthenticationError" ∈ dependenciesImportsFromExceptions
    ∧ "AuthenticationError" ∈ authRoutesImportsFromExceptions
    ∧ "AuthenticationError" ∈ authServiceImportsFromExceptions := by decide

/-- C4 counterexample: with the try block raising TypeError "boom" and the
compensating unlink raising an OSError, register_voice propagates the OSError
— the delete failure is not silently swallowed and the embedding-computation
error is not the one raised, refuting the claim as stated. -/
theorem register_cleanup_failure_not_swallowed :
    register_voice_after_save wBadRegisterEnv =
      (PyOutcome.raised (PyExc.osError "Permission denied"), false)
    ∧ PyOutcome.raised (PyExc.osError "Permission denied") ≠
        (PyOutcome.raised (PyExc.http (embeddingComputationError "boom")) :
          PyOutcome VoiceRow) := by decide

/-- C4 (amended): when the try block raises e after the file was saved,
register_voice raises EmbeddingComputationError around str(e), deleting the
file when the unlink succeeds and skipping the delete when the file is
already gone; but when the compensating unlink itself raises, that delete
failure propagates in place of the embedding-computation error. -/
theorem register_cleanup_behaviour (env : RegisterEnv) (e : PyExc)
    (h : env.tryOutcome = PyOutcome.raised e) :
    (env.fileStillExists = true → env.unlinkOutcome = none →
      register_voice_after_save env =
        (PyOutcome.raised (PyExc.http (embeddingComputationError (excMessage e))),
         true))
    ∧ (env.fileStillExists = false →
      register_voice_after_save env =
        (PyOutcome.raised (PyExc.http (embeddingComputationError (excMessage e))),
         false))
    ∧ (∀ ue, env.fileStillExists = true → env.unlinkOutcome = some ue →
      register_voice_after_save env = (PyOutcome.raised ue, false)) := by
  refine ⟨?_, ?_, ?_⟩
  · intro hex hun
    simp [register_voice_after_save, h, hex, hun]
  · intro hex
    simp [register_voice_after_save, h, hex]
  · intro ue hex hun
    simp [register_voice_after_save, h, hex, hun]

/-- Witness for the amended C4: in the environment where the try block raised
TypeError "boom" and the unlink succeeds, the file is deleted and
EmbeddingComputationError("boom") is raised. -/
theorem register_cleanup_behaviour_witness :
    wRegisterEnv.tryOutcome = PyOutcome.raised (PyExc.typeError "boom")
    ∧ register_voice_after_save wRegisterEnv =
        (PyOutcome.raised (PyExc.http (embeddingComputationError "boom")), true) :=
  ⟨by decide,
   (register_cleanup_behaviour wRegisterEnv (PyExc.typeError "boom")
       (by decide)).1 (by decide) (by decide)⟩

/-- C5: an access token minted for a stored user under the configured key,
validated immediately, resolves back to that user; and any token whose
signature does not verify under the key, or whose expiry is past, resolves to
None (unauthenticated) rather than raising. -/
theorem access_token_roundtrip :
    (∀ (db : List UserRow) (key : String) (now : Nat) (u : UserRow),
      user_get db u.user_id = some u → u.user_id ≠ "" →
      get_current_user db key now (create_access_token key now u) = some u)
    ∧ (∀ (db : List UserRow) (key : String) (now : Nat) (t : JWToken),
      t.sigKey ≠ key ∨ t.payload.exp < now →
      get_current_user db key now t = none) := by
  constructor
  · intro db key now u hu hid
    have hcond : now ≤ now + accessTokenExpireMinutes * 60 := Nat.le_add_right _ _
    simp [get_current_user, verify_access_token, jwtDecode, create_access_token,
      jwtEncode, hcond, hid, hu]
  · intro db key now t h
    have hc : ¬ (t.sigKey = key ∧ now ≤ t.payload.exp) := by
      rcases h with h | h
      · exact fun hc2 => h hc2.1
      · intro hc2
        omega
    simp [get_current_user, verify_access_token, jwtDecode, hc]

/-- Witness for C5: the stored user wUser round-trips through an access token
at time 100, while a forged-signature copy and an expired token resolve to
None. -/
theorem access_token_roundtrip_witness :
    user_get wUserDb wUser.user_id = some wUser
    ∧ wUser.user_id ≠ ""
    ∧ get_current_user wUserDb "secret" 100
        (create_access_token "secret" 100 wUser) = some wUser
    ∧ get_current_user wUserDb "secret" 100
        { payload := (create_access_token "secret" 100 wUser).payload,
          sigKey := "forged" } = none
    ∧ get_current_user wUserDb "secret" 5000
        (create_access_token "secret" 100 wUser) = none :=
  ⟨by decide, by decide,
   access_token_roundtrip.1 wUserDb "secret" 100 wUser (by decide) (by decide),
   access_token_roundtrip.2 wUserDb "secret" 100 _ (Or.inl (by decide)),
   access_token_roundtrip.2 wUserDb "secret" 5000 _ (Or.inr (by decide))⟩

/-- C9: access-token validation never inspects the type discriminator — a
refresh token (type "refresh", 30-day expiry) minted for a stored user and
presented to get_current_user before its expiry is accepted and resolves to
that user exactly as an access token would. -/
theorem refresh_token_accepted (db : List UserRow) (key : String)
    (mintTime checkTime : Nat) (u : UserRow)
    (hu : user_get db u.user_id = some u) (hid : u.user_id ≠ "")
    (hexp : checkTime ≤ mintTime + refreshTokenExpireDays * 86400) :
    (create_refresh_token key mintTime u).payload.type = "refresh"
    ∧ get_current_user db key checkTime (create_refresh_token key mintTime u) =
        some u := by
  constructor
  · rfl
  · simp [get_current_user, verify_access_token, jwtDecode, create_refresh_token,
      jwtEncode, hid, hu, hexp]

/-- Witness for C9: a refresh token for wUser minted at time 0 and checked at
time 50 resolves to wUser. -/
theorem refresh_token_accepted_witness :
    user_get wUserDb wUser.user_id = some wUser
    ∧ (50 : Nat) ≤ 0 + refreshTokenExpireDays * 86400
    ∧ (create_refresh_token "secret" 0 wUser).payload.type = "refresh"
    ∧ get_current_user wUserDb "secret" 50 (create_refresh_token "secret" 0 wUser) =
        some wUser :=
  ⟨by decide, by decide,
   (refresh_token_accepted wUserDb "secret" 0 50 wUser (by decide) (by decide)
     (by decide)).1,
   (refresh_token_accepted wUserDb "secret" 0 50 wUser (by decide) (by decide)
     (by decide)).2⟩

theorem find_append_singleton {α : Type} (p : α → Bool) (l : List α) (a : α)
    (h : ∀ x ∈ l, p x = false) (ha : p a = true) :
    (l ++ [a]).find? p = some a := by
  induction l with
  | nil => simp [List.find?, ha]
  | cons x xs ih =>
    have hx := h x (List.mem_cons_self x xs)
    simp only [List.cons_append, List.find?, hx]
    exact ih (fun y hy => h y (List.mem_cons_of_mem x hy))

/-- C7: a user created from an email is subsequently retrievable through
get_by_email applied to any case variant of the email (emails are lowercased
on write and on lookup) and through its generated id. -/
theorem user_create_roundtrip (db : List UserRow)
    (freshId email variant : String) (name picture : Option String)
    (provider : String)
    (hemail : ∀ r ∈ db, r.email ≠ pyLower email)
    (hid : ∀ r ∈ db, r.user_id ≠ freshId)
    (hvar : pyLower variant = pyLower email) :
    ∃ row, user_create db freshId email name picture provider =
        Except.ok (db ++ [row], row)
      ∧ row.user_id = freshId ∧ row.email = pyLower email
      ∧ user_get_by_email (db ++ [row]) variant = some row
      ∧ user_get (db ++ [row]) freshId = some row := by
  have hany1 : db.any (fun r => r.email == pyLower email) = false := by
    rw [List.any_eq_false]
    intro r hr
    simpa using hemail r hr
  have hany2 : db.any (fun r => r.user_id == freshId) = false := by
    rw [List.any_eq_false]
    intro r hr
    simpa using hid r hr
  refine ⟨{ user_id := freshId, email := pyLower email, name := name,
            picture := picture, provider := provider }, ?_, rfl, rfl, ?_, ?_⟩
  · simp [user_create, hany1, hany2]
  · unfold user_get_by_email
    apply find_append_singleton
    · intro r hr
      rw [hvar]
      simpa using hemail r hr
    · simp [hvar]
  · unfold user_get
    apply find_append_singleton
    · intro r hr
      simpa using hid r hr
    · simp

/-- Witness for C7: a user created from X@Y.com in an empty store is found by
get_by_email("x@y.COM") and by its generated id. -/
theorem user_create_roundtrip_witness :
    pyLower "x@y.COM" = pyLower "X@Y.com"
    ∧ ∃ row, user_create [] "u2" "X@Y.com" none none "google" =
        Except.ok ([] ++ [row], row)
      ∧ row.user_id = "u2" ∧ row.email = pyLower "X@Y.com"
      ∧ user_get_by_email ([] ++ [row]) "x@y.COM" = some row
      ∧ user_get ([] ++ [row]) "u2" = some row :=
  ⟨by decide,
   user_create_roundtrip [] "u2" "X@Y.com" "x@y.COM" none none "google"
     (by simp) (by simp) (by decide)⟩

/-- C8: for a stored voice id, synthesize with text that is empty or
whitespace-only (such text can still pass the request schema's min_length 1
constraint) yields SynthesisError, carried to the client as status 500, and
never invokes the inference engine. -/
theorem synthesize_whitespace_rejected (voices : List VoiceRow)
    (voiceId : String) (record : VoiceRow) (text format : String)
    (sampleRate : Nat)
    (hrec : voice_get voices voiceId = some record)
    (hws : pyStrip text = "") :
    voiceServiceSynthesize voices voiceId text format sampleRate =
      (Except.error (synthesisError "Text cannot be empty"), [])
    ∧ (synthesisError "Text cannot be empty").status = 500 := by
  constructor
  · simp [voiceServiceSynthesize, hrec, hws]
  · rfl

/-- Witness for C8: the stored voice v1 with the three-space text, which
passes the schema (min_length 1), is rejected with the 500 synthesis error
and no engine call. -/
theorem synthesize_whitespace_rejected_witness :
    voice_get wVoiceDb "v1" = some wVoice
    ∧ pyStrip "   " = ""
    ∧ synthesizeRequestValid "   " "wav" 22050 = true
    ∧ voiceServiceSynthesize wVoiceDb "v1" "   " "wav" 22050 =
        (Except.error (synthesisError "Text cannot be empty"), [])
    ∧ (synthesisError "Text cannot be empty").status = 500 :=
  ⟨by decide, by decide, by decide,
   (synthesize_whitespace_rejected wVoiceDb "v1" wVoice "   " "wav" 22050
     (by decide) (by decide)).1,
   (synthesize_whitespace_rejected wVoiceDb "v1" wVoice "   " "wav" 22050
     (by decide) (by decide)).2⟩

/-- C10: an upload whose content type is missing or empty is rejected by
validate_uploaded_file with the 400 invalid-audio-file error — the dependency
substitutes "" for the missing content type, "" is not in the MIME allow-list,
and the detail names "unknown" — never with an unhandled exception. -/
theorem missing_content_type_rejected (file : UploadFile)
    (hname : pyTruthyStr file.filename = true)
    (hct : file.content_type = none ∨ file.content_type = some "") :
    validate_uploaded_file file = Except.error (invalidAudioFileError "unknown")
    ∧ (invalidAudioFileError "unknown").status = 400 := by
  constructor
  · have h1 : validate_audio_file "" = false := by decide
    rcases hct with h | h
    · have h2 : pyOrStr none "" = "" := rfl
      have h3 : pyOrStr none "unknown" = "unknown" := rfl
      simp [validate_uploaded_file, hname, h, h1, h2, h3]
    · have h2 : pyOrStr (some "") "" = "" := rfl
      have h3 : pyOrStr (some "") "unknown" = "unknown" := rfl
      simp [validate_uploaded_file, hname, h, h1, h2, h3]
  · rfl

/-- Witness for C10: the upload with filename sample.wav and no content type
is rejected with the 400 invalid-audio-file error. -/
theorem missing_content_type_rejected_witness :
    pyTruthyStr wUploadNoType.filename = true
    ∧ validate_uploaded_file wUploadNoType =
        Except.error (invalidAudioFileError "unknown")
    ∧ (invalidAudioFileError "unknown").status = 400 :=
  ⟨by decide,
   (missing_content_type_rejected wUploadNoType (by decide)
     (Or.inl (by decide))).1,
   (missing_content_type_rejected wUploadNoType (by decide)
     (Or.inl (by decide))).2⟩
